import Mathlib

/-!
Verification of the dispy-markdown core (`src/dispy_markdown/core.py`).

The file shallowly embeds the parts of the source the claims are about:
the HTML tag builder, the overridden grammar rules (block quote, code
block, emphasis, text) and the platform mention/emoji rules, plus the
dispatcher's parser selection and state construction.  Python dicts that
carry the parse state become a `PState` structure; in-place mutation of
the state dict becomes explicit state passing (a rule's `parse` returns
the state the caller sees afterwards); Python exceptions become
`Except`.  The regular expressions of the source are hand-translated
into executable functions on `List Char`, one per rule, each documented
with the original pattern.

External collaborators (the `simpy_markdown` engine primitives, the
sanitizer, the syntax highlighter) are out of scope per the spec and are
modelled from the spec at their interface; every such definition is
marked `Modelled from the spec:` in its doc comment.
-/

namespace DispyMarkdown

/-- Python `str.isspace`-style whitespace for the ASCII range, matching
`\s` of the `re` module on the inputs considered here. -/
def isPySpace (c : Char) : Bool :=
  c = ' ' || c = '\t' || c = '\n' || c = '\r' || c = '\x0b' || c = '\x0c'

/-- The character class `[0-9]` of the source's mention regexes. -/
def isPyDigit (c : Char) : Bool :=
  '0' ≤ c && c ≤ '9'

/-- Python `\w` (word character) restricted to the ASCII fragment used by
the emoji regex `^<(a?):(\w+):(\d+)>`: letters, digits and underscore. -/
def isPyWord (c : Char) : Bool :=
  c.isAlphanum || c = '_'

/-- Join a list of strings with a separator, as Python `sep.join(parts)`. -/
def sjoin (sep : String) : List String → String
  | [] => ""
  | [x] => x
  | x :: xs => x ++ sep ++ sjoin sep xs

/-- `listStartsWith pat l` holds when `pat` is an initial segment of `l`. -/
def listStartsWith : List Char → List Char → Bool
  | [], _ => true
  | _ :: _, [] => false
  | p :: ps, c :: cs => p == c && listStartsWith ps cs

/-- Python `s.split('\n')`: split on every newline, keeping empty pieces. -/
def splitNl : List Char → List (List Char)
  | [] => [[]]
  | '\n' :: r => [] :: splitNl r
  | c :: r =>
    match splitNl r with
    | [] => [[c]]
    | l :: ls => (c :: l) :: ls

/-- Rejoin the pieces produced by `splitNl` with newlines. -/
def joinNl : List (List Char) → List Char
  | [] => []
  | [l] => l
  | l :: ls => l ++ '\n' :: joinNl ls

/-- Python `s.split()` with no argument: split on whitespace runs,
dropping empty pieces (used by the code-block class remapping). -/
def splitWsAux : List Char → List Char → List (List Char)
  | acc, [] => if acc.isEmpty then [] else [acc.reverse]
  | acc, c :: r =>
    if isPySpace c then
      if acc.isEmpty then splitWsAux [] r else acc.reverse :: splitWsAux [] r
    else splitWsAux (c :: acc) r

def splitWs (cs : List Char) : List (List Char) := splitWsAux [] cs

/-- Python `str.strip()` on the language tag (`core.py` line 62). -/
def pyStrip (s : String) : String :=
  ⟨((s.data.dropWhile isPySpace).reverse.dropWhile isPySpace).reverse⟩

/-- Modelled from the spec: the collaborator sanitizer
`escape_text(s)` HTML-escapes the characters `&<>"` and the single
quote (spec section 6); the source reaches it as `md.sanitize_text`. -/
def sanitize_char (c : Char) : List Char :=
  if c = '&' then "&amp;".data
  else if c = '<' then "&lt;".data
  else if c = '>' then "&gt;".data
  else if c = '"' then "&quot;".data
  else if c = '\x27' then "&#x27;".data
  else [c]

def sanitize_text (s : String) : String :=
  ⟨(s.data.map sanitize_char).flatten⟩

/-- The mention-rendering callbacks carried in the state under the key
`discord_callback`.  User/channel/role callbacks receive the parsed
node, whose only payload is the captured id (`core.py` lines 222-228). -/
structure Callbacks where
  user : String → String
  channel : String → String
  role : String → String
  everyone : Unit → String
  here : Unit → String

/-- Per-kind overrides supplied through the `discord_callback` option and
merged over the defaults by `to_html` (`core.py` line 388). -/
structure CallbackOverrides where
  user : Option (String → String) := none
  channel : Option (String → String) := none
  role : Option (String → String) := none
  everyone : Option (Unit → String) := none
  here : Option (Unit → String) := none

/-- The parse-state dict built by `to_html` (`core.py` lines 382-389). -/
structure PState where
  inline : Bool := true
  in_quote : Bool := false
  in_emphasis : Bool := false
  escape_html : Bool := true
  css_module_names : Option (List (String × String)) := none
  discord_callback : Callbacks

/-- The options dict accepted by `to_html` with its defaults
(`core.py` lines 362-368). -/
structure Options where
  embed : Bool := false
  escape_html : Bool := true
  discord_only : Bool := false
  discord_callback : CallbackOverrides := {}
  css_module_names : Option (List (String × String)) := none

/-- `discord_callback_defaults` (`core.py` lines 222-228). -/
def discord_callback_defaults : Callbacks where
  user := fun id => "@" ++ sanitize_text id
  channel := fun id => "#" ++ sanitize_text id
  role := fun id => "&" ++ sanitize_text id
  everyone := fun _ => "@everyone"
  here := fun _ => "@here"

/-- State construction in `to_html` (`core.py` lines 382-389).  The
expression `options.get('css_module_names') or None` maps a missing or
empty (falsy) table to `None`; the callback dict is the defaults updated
with the caller's overrides. -/
def mk_state (o : Options) : PState where
  inline := true
  in_quote := false
  in_emphasis := false
  escape_html := o.escape_html
  css_module_names :=
    match o.css_module_names with
    | some [] => none
    | x => x
  discord_callback :=
    { user := o.discord_callback.user.getD discord_callback_defaults.user
      channel := o.discord_callback.channel.getD discord_callback_defaults.channel
      role := o.discord_callback.role.getD discord_callback_defaults.role
      everyone := o.discord_callback.everyone.getD discord_callback_defaults.everyone
      here := o.discord_callback.here.getD discord_callback_defaults.here }

/-- The character-wise class rewrite performed by `html_tag`
(`core.py` line 15): the source iterates the class attribute *string*
(`for cl in attributes['class']`), so each single character is looked up
in the remap table and the results are joined with spaces. -/
def remapClassChars (m : List (String × String)) (cls : String) : String :=
  sjoin " " (cls.data.map (fun c => (m.lookup (String.mk [c])).getD (String.mk [c])))

/-- Replace the value stored under the `class` key, in place. -/
def setClassAttr (attrs : List (String × String)) (v : String) : List (String × String) :=
  attrs.map (fun kv => if kv.1 == "class" then (kv.1, v) else kv)

/-- `html_tag` (`core.py` lines 10-25).  Attributes are an insertion
ordered assoc list, as a Python dict.  The `class` rewrite fires when the
`class` value and the state's `css_module_names` are both truthy; falsy
(empty) attribute values are omitted from the emitted tag; names and
values pass through the sanitizer; a space always follows the tag name
(`f'<{tag_name} {attr_string}>'`).  When `is_closed` is false only the
opening tag is returned. -/
def html_tag (tag_name content : String) (attributes : List (String × String))
    (is_closed : Bool) (state : Option PState) : String :=
  let attributes :=
    match state with
    | some st =>
      match st.css_module_names with
      | some m =>
        if (attributes.lookup "class").getD "" ≠ "" && !m.isEmpty then
          setClassAttr attributes (remapClassChars m ((attributes.lookup "class").getD ""))
        else attributes
      | none => attributes
    | none => attributes
  let attr_string :=
    sjoin " " ((attributes.filter (fun kv => kv.2 ≠ "")).map
      (fun kv => sanitize_text kv.1 ++ "=\"" ++ sanitize_text kv.2 ++ "\""))
  let unclosed_tag := "<" ++ tag_name ++ " " ++ attr_string ++ ">"
  if is_closed then unclosed_tag ++ content ++ "</" ++ tag_name ++ ">"
  else unclosed_tag

/-- The inline nodes produced by the mentions-only rule table
`rules_discord_only` (`core.py` line 346): the six platform rules plus
the terminal `Text` rule.  Payloads are exactly the fields each rule's
`parse` stores (`core.py` lines 238-241, 255-258, 272-275, 289-294,
312-313, 327-328, and the base text parse). -/
inductive DNode where
  | text (content : String)
  | user (id : String)
  | channel (id : String)
  | role (id : String)
  | emoji (animated : Bool) (name : String) (id : String)
  | everyone
  | here
deriving DecidableEq, Repr

/-- The shared `([0-9]*)>` tail of the three mention regexes: a maximal
(possibly empty) digit run followed by `>`.  Returns the whole match
(`pre` plus the consumed tail) and the captured digit group. -/
def discordMentionTail (pre rest : List Char) : Option (List Char × String) :=
  match rest.dropWhile isPyDigit with
  | '>' :: _ => some (pre ++ rest.takeWhile isPyDigit ++ ['>'], ⟨rest.takeWhile isPyDigit⟩)
  | _ => none

/-- `DiscordUser.match` (`core.py` line 235): the regex `^<@!?([0-9]*)>`.
The optional `!` is deterministic: when a `!` is present the variant
without it cannot reach the closing `>` (a `!` is not a digit), so the
two arms cover exactly the regex's backtracking. -/
def discordUser_match (cs : List Char) : Option (List Char × String) :=
  match cs with
  | '<' :: '@' :: '!' :: rest => discordMentionTail ['<', '@', '!'] rest
  | '<' :: '@' :: rest => discordMentionTail ['<', '@'] rest
  | _ => none

/-- `DiscordChannel.match` (`core.py` line 252): the regex
`^<#?([0-9]*)>` - the `#` marker is optional and the digit group may be
empty, so plain `<123>` (and even `<>`) match. -/
def discordChannel_match (cs : List Char) : Option (List Char × String) :=
  match cs with
  | '<' :: '#' :: rest => discordMentionTail ['<', '#'] rest
  | '<' :: rest => discordMentionTail ['<'] rest
  | _ => none

/-- `DiscordRole.match` (`core.py` line 269): the regex `^<@&([0-9]*)>`. -/
def discordRole_match (cs : List Char) : Option (List Char × String) :=
  match cs with
  | '<' :: '@' :: '&' :: rest => discordMentionTail ['<', '@', '&'] rest
  | _ => none

/-- `DiscordEmoji.match` (`core.py` line 286): the regex
`^<(a?):(\w+):(\d+)>`; returns (whole match, animated group, name, id).
The optional `a` commits only when followed by `:`, mirroring the
regex's backtracking. -/
def discordEmojiBody (flag : String) (r : List Char) :
    Option (List Char × String × String × String) :=
  let name := r.takeWhile isPyWord
  if name.isEmpty then none
  else
    match r.dropWhile isPyWord with
    | ':' :: r2 =>
      let ds := r2.takeWhile isPyDigit
      if ds.isEmpty then none
      else
        match r2.dropWhile isPyDigit with
        | '>' :: _ =>
          some ('<' :: flag.data ++ ':' :: name ++ ':' :: ds ++ ['>'], flag, ⟨name⟩, ⟨ds⟩)
        | _ => none
    | _ => none

def discordEmoji_match (cs : List Char) : Option (List Char × String × String × String) :=
  match cs with
  | '<' :: 'a' :: ':' :: r => discordEmojiBody "a" r
  | '<' :: ':' :: r => discordEmojiBody "" r
  | _ => none

/-- `DiscordEveryone.match` (`core.py` line 309): the regex `^@everyone`. -/
def discordEveryone_match (cs : List Char) : Option (List Char) :=
  if listStartsWith "@everyone".data cs then some "@everyone".data else none

/-- `DiscordHere.match` (`core.py` line 324): the regex `^@here`. -/
def discordHere_match (cs : List Char) : Option (List Char) :=
  if listStartsWith "@here".data cs then some "@here".data else none

/-- One lookahead alternative of the `Text.match` regex
`^[\s\S]+?(?=[^0-9A-Za-z\sÀ-￿-]|\n\n|\n|\w+:\S|$)`
(`core.py` line 151): true when the remaining suffix starts with a
special character, a newline, a `word:nonspace` token, or is empty
(the `$` alternative; `\n\n` is subsumed by `\n`). -/
def textSpecial (c : Char) : Bool :=
  !(isPyDigit c || ('A' ≤ c && c ≤ 'Z') || ('a' ≤ c && c ≤ 'z') || isPySpace c
    || (0xc0 ≤ c.toNat && c.toNat ≤ 0xffff) || c = '-')

def textWordColon (l : List Char) : Bool :=
  !(l.takeWhile isPyWord).isEmpty &&
    (match l.dropWhile isPyWord with
     | ':' :: s :: _ => !isPySpace s
     | _ => false)

def textBoundary : List Char → Bool
  | [] => true
  | c :: rest => textSpecial c || c = '\n' || textWordColon (c :: rest)

/-- The lazy `[\s\S]+?` of `Text.match`: starting from one consumed
character, keep consuming until the lookahead holds at the remainder. -/
def textTake (acc : List Char) : List Char → List Char
  | [] => acc.reverse
  | d :: r => if textBoundary (d :: r) then acc.reverse else textTake (d :: acc) r

/-- `Text.match` (`core.py` line 151): on a non-empty source it returns
the shortest non-empty prefix after which a lookahead alternative holds. -/
def text_match : List Char → Option (List Char)
  | [] => none
  | c :: rest => some (textTake [c] rest)

/-- The `html` methods of the mentions-only rules
(`core.py` lines 243-245, 260-262, 277-279, 296-302, 315-317, 330-332,
and `Text.html` lines 153-158).  Mentions wrap the callback output in a
`span` with the semantic class; the emoji emits an unclosed `img`
(`is_closed=False`); text is sanitized exactly when `escape_html` is
set. -/
def dnode_html (st : PState) : DNode → String
  | .text c => if st.escape_html then sanitize_text c else c
  | .user id => html_tag "span" (st.discord_callback.user id)
      [("class", "d-mention d-user")] true (some st)
  | .channel id => html_tag "span" (st.discord_callback.channel id)
      [("class", "d-mention d-channel")] true (some st)
  | .role id => html_tag "span" (st.discord_callback.role id)
      [("class", "d-mention d-role")] true (some st)
  | .emoji animated name id => html_tag "img" ""
      [("class", "d-emoji" ++ (if animated then " d-emoji-animated" else "")),
       ("src", "https://cdn.discordapp.com/emojis/" ++ id ++ "."
          ++ (if animated then "gif" else "png")),
       ("alt", ":" ++ name ++ ":")] false (some st)
  | .everyone => html_tag "span" (st.discord_callback.everyone ())
      [("class", "d-mention d-user")] true (some st)
  | .here => html_tag "span" (st.discord_callback.here ())
      [("class", "d-mention d-user")] true (some st)

/-- Modelled from the spec: the engine tries the rules of a table in
ascending precedence and commits to the first whose `match` succeeds
(spec section 2 and 4.1).  For the mentions-only table
`rules_discord_only` the six platform rules (all at the `strong` order)
come before the terminal `Text` rule; each rule's `parse` is applied to
the capture.  None of these rules' `match` or `parse` reads or writes
the state (`core.py` lines 233-346). -/
def firstDiscordMatch (cs : List Char) : Option (List Char × DNode) :=
  match discordUser_match cs with
  | some (cap, id) => some (cap, DNode.user id)
  | none =>
  match discordChannel_match cs with
  | some (cap, id) => some (cap, DNode.channel id)
  | none =>
  match discordRole_match cs with
  | some (cap, id) => some (cap, DNode.role id)
  | none =>
  match discordEmoji_match cs with
  | some (cap, a, name, id) => some (cap, DNode.emoji (a == "a") name id)
  | none =>
  match discordEveryone_match cs with
  | some cap => some (cap, DNode.everyone)
  | none =>
  match discordHere_match cs with
  | some cap => some (cap, DNode.here)
  | none => (text_match cs).map (fun t => (t, DNode.text ⟨t⟩))

/-- Modelled from the spec: the engine's source cursor loop - consume
the first matching rule's whole capture, emit its parsed node, repeat on
the remainder (spec section 2).  Fuel (the source length) bounds the
recursion; every built-in matcher consumes at least one character. -/
def parseDiscordAux : Nat → List Char → List DNode
  | 0, _ => []
  | _, [] => []
  | fuel + 1, cs =>
    match firstDiscordMatch cs with
    | some (cap, n) => n :: parseDiscordAux fuel (cs.drop cap.length)
    | none => []

/-- `parser_discord` (`core.py` line 352) applied to a source string. -/
def parser_discord (s : String) (_st : PState) : List DNode :=
  parseDiscordAux s.data.length s.data

/-- `html_output_discord` (`core.py` line 353): render each node with
its rule's `html` and concatenate. -/
def html_output_discord (ns : List DNode) (st : PState) : String :=
  sjoin "" (ns.map (dnode_html st))

/-- The `discord_only` pipeline of `to_html` (`core.py` lines 375-377,
382-391): build the state from the options, parse with the
mentions-only table, render the node list. -/
def to_html_discord_only (source : String) (options : Options) : String :=
  let st := mk_state options
  html_output_discord (parser_discord source st) st

/-- Composition of `DiscordEmoji.match`, `.parse` and `.html`
(`core.py` lines 282-302) on one source token: `parse` stores
`animated = (capture[1] == 'a')`, the name and the id. -/
def emojiRender (src : String) (st : PState) : Option String :=
  (discordEmoji_match src.data).map
    (fun r => dnode_html st (DNode.emoji (r.2.1 == "a") r.2.2.1 r.2.2.2))

/-- The precondition regex of `BlockQuote.match` (`core.py` line 35):
`re.search(r'^$|\n *$', previous_source)`.  Without MULTILINE, `^`
matches only at the start and `$` at the end or just before a final
newline, so the search succeeds exactly when the previous source is
empty or ends in a newline followed by spaces (possibly with one more
trailing newline). -/
def endsAtLineStart (p : List Char) : Bool :=
  p.isEmpty || (p.reverse.dropWhile (· = ' ')).head? == some '\n'

/-- One ` *> [^\n]*` line of the second alternative of the
`BlockQuote.match` regex: returns the consumed prefix and the rest. -/
def quoteLine (cs : List Char) : Option (List Char × List Char) :=
  let sp := cs.takeWhile (· = ' ')
  match cs.dropWhile (· = ' ') with
  | '>' :: ' ' :: r =>
    some (sp ++ '>' :: ' ' :: r.takeWhile (· ≠ '\n'), r.dropWhile (· ≠ '\n'))
  | _ => none

/-- The `(\n *> [^\n]*)*\n?` tail of the second alternative: consume
further marked lines, else at most one trailing newline.  Fuel bounds
the recursion (each step consumes the leading newline). -/
def quoteRest : Nat → List Char → List Char × List Char
  | 0, rest => ([], rest)
  | fuel + 1, rest =>
    match rest with
    | '\n' :: r =>
      match quoteLine r with
      | some (c1, r1) =>
        let p := quoteRest fuel r1
        ('\n' :: (c1 ++ p.1), p.2)
      | none => (['\n'], r)
    | _ => ([], rest)

/-- `BlockQuote.match` (`core.py` lines 33-36): fails unless the
previous source ends at a line boundary and `state.in_quote` is false;
otherwise the source is matched against
`^( *>>> ([\s\S]*))|^( *> [^\n]*(\n *> [^\n]*)*\n?)` and the whole
match is returned.  The first alternative (spaces, `>>> `, then
everything to the end of input) is tried first. -/
def blockQuote_match (source previous_source : String) (st : PState) : Option String :=
  if !endsAtLineStart previous_source.data || st.in_quote then none
  else
    let cs := source.data
    if listStartsWith ['>', '>', '>', ' '] (cs.dropWhile (· = ' ')) then some source
    else
      match quoteLine cs with
      | some (c1, r1) =>
        let p := quoteRest r1.length r1
        some ⟨c1 ++ p.1⟩
      | none => none

/-- The per-line marker removal `re.sub(r'^ *> ?', '', line)` done under
MULTILINE by `BlockQuote.parse` (`core.py` lines 42-44): strip leading
spaces, `>`, and one optional space; lines without a marker stay. -/
def stripInlineMarker (l : List Char) : List Char :=
  match l.dropWhile (· = ' ') with
  | '>' :: ' ' :: r => r
  | '>' :: r => r
  | _ => l

/-- The single `re.sub(r'^ *>>> ?', '', all, count=1)` of the `>>>`
block form: strip one leading marker at the start of the capture. -/
def stripBlockMarker (cs : List Char) : List Char :=
  match cs.dropWhile (· = ' ') with
  | '>' :: '>' :: '>' :: ' ' :: r => r
  | '>' :: '>' :: '>' :: r => r
  | _ => cs

/-- A `block_quote` node (`core.py` lines 47-50): the recursively parsed
content of the quote. -/
structure BlockQuoteNode where
  content : List DNode
deriving DecidableEq

/-- `BlockQuote.parse` (`core.py` lines 38-50).  The Python body decides
the block form by `re.search(r'^ *>>> ?', all)`, strips the marker(s),
then executes `state['in_quote'] = True` on the caller's own state dict
before recursing - mutation of the shared dict is modelled by returning
the state the caller sees after the call: the state produced by the
nested parse, which was entered with `in_quote` set and is never reset. -/
def blockQuote_parse (capture : String)
    (parseFn : String → PState → List DNode × PState) (st : PState) :
    BlockQuoteNode × PState :=
  let all_ := capture.data
  let is_block := listStartsWith ['>', '>', '>'] (all_.dropWhile (· = ' '))
  let content : String :=
    if is_block then ⟨stripBlockMarker all_⟩
    else ⟨joinNl ((splitNl all_).map stripInlineMarker)⟩
  let st1 := { st with in_quote := true }
  let p := parseFn content st1
  (⟨p.1⟩, p.2)

/-- The nested-parse callback the engine would pass into
`BlockQuote.parse`: parse the stripped content with the rule table and
hand back the same (unmodified) state, since none of the mentions-only
rules writes to the state. -/
def dparse : String → PState → List DNode × PState :=
  fun s st => (parser_discord s st, st)

/-- A `code_block` node (`core.py` lines 60-65). -/
structure CodeBlockNode where
  lang : String
  content : String
  in_quote : Bool
deriving DecidableEq

/-- `CodeBlock.parse` (`core.py` lines 59-65): `lang` is the stripped
optional second capture group, `content` the third, and the ambient
`in_quote` flag is recorded on the node. -/
def codeBlock_parse (capture2 capture3 : Option String) (st : PState) : CodeBlockNode where
  lang := pyStrip (capture2.getD "")
  content := capture3.getD ""
  in_quote := st.in_quote

/-- The character class `[a-z0-9-_ ]` of the highlighted-span rewrite in
`CodeBlock.html` (`core.py` line 74). -/
def isSpanClassChar (c : Char) : Bool :=
  ('a' ≤ c && c ≤ 'z') || isPyDigit c || c = '-' || c = '_' || c = ' '

/-- One remapped replacement for
`re.sub(r'<span class="([a-z0-9-_ ]+)">', ...)` (`core.py` lines 73-76):
the lambda computes `m[0].replace(m[0], joined)`, i.e. the whole matched
span tag is replaced by the space-joined remapped class tokens. -/
def remapSpanJoined (m : List (String × String)) (cls : List Char) : List Char :=
  (sjoin " " ((splitWs cls).map
    (fun t => (m.lookup (String.mk t)).getD (String.mk t)))).data

def spanClassOpen : List Char := "<span class=\"".data

/-- The scan of `re.sub` over the highlighted code for `CodeBlock.html`:
each occurrence of `<span class="([a-z0-9-_ ]+)">` is replaced via
`remapSpanJoined`; fuel bounds the recursion. -/
def remapSpanSub (m : List (String × String)) : Nat → List Char → List Char
  | 0, cs => cs
  | _ + 1, [] => []
  | fuel + 1, c :: rest =>
    if listStartsWith spanClassOpen (c :: rest) then
      let after := (c :: rest).drop spanClassOpen.length
      let cls := after.takeWhile isSpanClassChar
      let after2 := after.drop cls.length
      if !cls.isEmpty && listStartsWith ['"', '>'] after2 then
        remapSpanJoined m cls ++ remapSpanSub m fuel (after2.drop 2)
      else c :: remapSpanSub m fuel rest
    else c :: remapSpanSub m fuel rest

/-- Python truthiness of the `code` variable in `CodeBlock.html`:
a string is truthy when non-empty, `None` is falsy. -/
def optStrTruthy : Option String → Bool
  | some s => s ≠ ""
  | none => false

/-- `CodeBlock.html` (`core.py` lines 67-82).

The highlighter collaborator is modelled from the spec as a language
recognizer `get_lexer_by_name : String -> Bool` and a highlighting
function on the content (spec section 6: an unknown language is a
normal, non-fatal `unavailable` outcome).

The source then computes
`code if code else md.sanitize_text(node.content)` - but nodes are
plain Python dicts (every other access in the file is `node['...']`),
so whenever `code` is falsy the attribute access `node.content` raises
`AttributeError` before any tag is built; this is modelled by the
`Except.error` branch.  The nested `html_tag` calls pass `state` as the
*fourth positional argument* (`is_closed`), so the tags are closed (a
populated state dict is truthy) and no state reaches `html_tag`. -/
def codeBlock_html (get_lexer_by_name : String → Bool) (highlight : String → String)
    (node : CodeBlockNode) (st : PState) : Except String String :=
  let code : Option String :=
    if node.lang ≠ "" && get_lexer_by_name node.lang then some (highlight node.content)
    else none
  let code : Option String :=
    match st.css_module_names with
    | some m =>
      if optStrTruthy code && !m.isEmpty then
        code.map (fun c => ⟨remapSpanSub m c.data.length c.data⟩)
      else code
    | none => code
  match code with
  | some c =>
    if c ≠ "" then
      .ok (html_tag "pre"
        (html_tag "code" c [("class", "hljs " ++ node.lang)] true none) [] true none)
    else .error "AttributeError: dict object has no attribute content"
  | none => .error "AttributeError: dict object has no attribute content"

/-- The two Python classes that matter to the zero-argument `super()`
call in `Em.parse`: the `Em` rule class itself and the `re.Match`
object the engine passes as the `capture` argument. -/
inductive PyClass where
  | emRule
  | reMatch
deriving DecidableEq

/-- Whether a value of the given class is an instance or subtype of
`Em`: a regex match object is not. -/
def isInstanceOrSubtypeOfEm : PyClass → Bool
  | .emRule => true
  | .reMatch => false

def pySuperTypeError : String :=
  "TypeError: super(type, obj): obj must be an instance or subtype of type"

/-- CPython semantics of a zero-argument `super()` call inside a
function defined in a class body: the interpreter takes the `__class__`
cell and the *first positional argument of the calling frame* as the
bound object, and raises `TypeError` unless that object is an instance
or subtype of the class.  In a `@staticmethod` there is no `self`, so
the first frame argument is whatever the caller passed first. -/
def zeroArgSuper (firstFrameArg : PyClass) : Except String Unit :=
  if isInstanceOrSubtypeOfEm firstFrameArg then .ok () else .error pySuperTypeError

/-- The node the base `em` rule's parse would return: emphasised inline
content. -/
structure EmNode where
  content : List DNode
deriving DecidableEq

/-- The two possible results of `Em.parse`: the collapsed inner content
list, or the wrapped emphasis node. -/
inductive EmParseResult where
  | collapsed (content : List DNode)
  | wrapped (n : EmNode)
deriving DecidableEq

/-- `Em.parse` (`core.py` lines 119-126).  The body copies the state,
sets `in_emphasis` on the copy, and calls `super().parse(capture, parse,
_state)`.  `parse` is a `@staticmethod`, so the zero-argument `super()`
resolves against the frame's first argument - the regex `capture` the
engine passed in, of class `re.Match` - and CPython raises `TypeError`
before the base parse ever runs.  The collapse test
`parsed['content'] if state.get('in_emphasis') else parsed` is
therefore unreachable. -/
def em_parse (baseParse : String → PState → EmNode) (capture : String) (st : PState) :
    Except String EmParseResult :=
  let st' := { st with in_emphasis := true }
  match zeroArgSuper PyClass.reMatch with
  | .error e => .error e
  | .ok _ =>
    let parsed := baseParse capture st'
    .ok (if st.in_emphasis then .collapsed parsed.content else .wrapped parsed)

/-- The parser/renderer configurations `to_html` can select
(`core.py` lines 370-380). -/
inductive ParserChoice where
  | custom
  | discordOnly
  | embed
  | full
deriving DecidableEq

def config_error_msg : String :=
  "You must pass both a custom parser and custom htmlOutput function, not just one!"

/-- The synchronous configuration check and table selection of `to_html`
(`core.py` lines 358-380): raise when `(customParser or
custom_html_output) and (not customParser or not custom_html_output)`,
else prefer the custom pair, then `discord_only`, then `embed`, then the
full table.  A supplied callable is truthy, so presence is a Bool. -/
def to_html_select (customParser custom_html_output discord_only embed : Bool) :
    Except String ParserChoice :=
  if (customParser || custom_html_output) && (!customParser || !custom_html_output) then
    .error config_error_msg
  else if customParser then .ok .custom
  else if discord_only then .ok .discordOnly
  else if embed then .ok .embed
  else .ok .full

deriving instance DecidableEq for Except

/-! Helper lemmas. -/

/-- Whatever `takeWhile` keeps satisfies the predicate. -/
theorem all_takeWhile_holds (p : Char → Bool) :
    ∀ l : List Char, (l.takeWhile p).all p = true := by
  intro l
  induction l with
  | nil => rfl
  | cons c t ih =>
    by_cases h : p c = true
    · simpa [List.takeWhile_cons, h] using ih
    · simp [List.takeWhile_cons, Bool.eq_false_iff.mpr h]

/-- The digit group captured by `discordMentionTail` is all digits. -/
theorem discordMentionTail_digits (pre rest cap : List Char) (id : String)
    (h : discordMentionTail pre rest = some (cap, id)) :
    id.data.all isPyDigit = true := by
  unfold discordMentionTail at h
  split at h
  · simp only [Option.some.injEq, Prod.mk.injEq] at h
    obtain ⟨-, h2⟩ := h
    subst h2
    exact all_takeWhile_holds isPyDigit _
  · exact absurd h (by simp)

/-- `textTake` never returns the empty list when its accumulator is
non-empty. -/
theorem textTake_ne_nil (rest : List Char) :
    ∀ acc : List Char, acc ≠ [] → textTake acc rest ≠ [] := by
  induction rest with
  | nil => intro acc h; simp [textTake, h]
  | cons d r ih =>
    intro acc h
    by_cases hb : textBoundary (d :: r) = true
    · simp [textTake, hb, h]
    · simpa [textTake, hb] using ih (d :: acc) (by simp)

/-- `Text.match` succeeds with a non-empty capture on any non-empty
remainder. -/
theorem text_match_some (cs : List Char) (h : cs ≠ []) :
    ∃ t, text_match cs = some t ∧ t ≠ [] := by
  match cs with
  | c :: rest => exact ⟨textTake [c] rest, rfl, textTake_ne_nil rest [c] (by simp)⟩

/-! The claims. -/

/-- C1: the claim says rendering a code block whose language is not
recognized (or is absent) falls back, without raising, to a
`pre > code.hljs` wrapper around the escaped literal code, and that a
recognized language yields class `hljs <lang>`.  The code violates the
fallback half: whenever no highlighted code was produced,
`CodeBlock.html` evaluates `node.content` on a plain dict node and
raises `AttributeError` (`core.py` line 79) - shown here for the node
parsed from a plain fence (empty language, any recognizer or
highlighter) and for an unrecognized language.  The recognized-language
half does hold, with class exactly `hljs py`. -/
theorem code_block_fallback_raises :
    (∀ (g : String → Bool) (hl : String → String),
      codeBlock_html g hl ⟨"", "print(1)", false⟩ (mk_state {}) =
        .error "AttributeError: dict object has no attribute content") ∧
    (∀ hl : String → String,
      codeBlock_html (fun _ => false) hl ⟨"notalang", "print(1)", false⟩ (mk_state {}) =
        .error "AttributeError: dict object has no attribute content") ∧
    codeBlock_html (fun l => l == "py") (fun c => "<span class=\"k\">" ++ c ++ "</span>")
        ⟨"py", "print(1)", false⟩ (mk_state {}) =
      .ok "<pre ><code class=\"hljs py\"><span class=\"k\">print(1)</span></code></pre>" := by
  refine ⟨fun g hl => rfl, fun hl => rfl, by decide⟩

/-- C2: the claim says the `in_quote` flag set while parsing a quote's
subtree is not visible afterwards, so a later sibling block quote still
matches.  The code violates this: `BlockQuote.parse` sets
`state['in_quote'] = True` on the caller's own state dict
(`core.py` line 45) and nothing resets it, so after the first quote of
a document is parsed the state's `in_quote` is `true` and
`BlockQuote.match` rejects the second quote, while with the original
state it would have matched. -/
theorem block_quote_state_leak :
    blockQuote_match "> a" "" (mk_state {}) = some "> a" ∧
    (mk_state {}).in_quote = false ∧
    (blockQuote_parse "> a" dparse (mk_state {})).2.in_quote = true ∧
    blockQuote_match "> b" "a\n\n" ((blockQuote_parse "> a" dparse (mk_state {})).2) = none ∧
    blockQuote_match "> b" "a\n\n" (mk_state {}) = some "> b" := by
  refine ⟨by decide, rfl, rfl, by decide, by decide⟩

/-- C3: the claim says `html_tag` remaps each whole space-separated
class token through a configured `css_module_names` table, never
splitting tokens into characters.  The code violates this: it iterates
the class attribute *string* (`core.py` line 15), so each character is
looked up and the characters are joined with spaces - `d-spoiler` under
the table mapping `d-spoiler` to `myclass` comes out as
`d - s p o i l e r`, not `myclass`. -/
theorem html_tag_class_remap_chars :
    html_tag "span" "x" [("class", "d-spoiler")] true
        (some (mk_state {css_module_names := some [("d-spoiler", "myclass")]})) =
      "<span class=\"d - s p o i l e r\">x</span>" ∧
    html_tag "span" "x" [("class", "d-spoiler")] true
        (some (mk_state {css_module_names := some [("d-spoiler", "myclass")]})) ≠
      "<span class=\"myclass\">x</span>" := by
  refine ⟨by decide, by decide⟩

/-- C4: rendering `<@123>` through the `discord_only` pipeline with the
default callbacks yields a `span` of class `d-mention d-user` containing
`@123`; overriding the user entry of the callback option (named
`discord_callback` in the code, `mention_callbacks` in the spec) with a
constant `custom` changes only the inner text.  The first conjunct
checks the dispatcher routes `discord_only` to the mentions-only
table. -/
theorem discord_user_mention_render :
    to_html_select false false true false = .ok .discordOnly ∧
    to_html_discord_only "<@123>" {discord_only := true} =
      "<span class=\"d-mention d-user\">@123</span>" ∧
    to_html_discord_only "<@123>"
        {discord_only := true,
         discord_callback := {user := some (fun _ => "custom")}} =
      "<span class=\"d-mention d-user\">custom</span>" := by
  refine ⟨rfl, by decide, by decide⟩

/-- C5: the claim says `render("*_x_*")` produces a single `em` via the
collapse in `Em.parse`.  The code violates this: `Em.parse` is a
`@staticmethod` whose zero-argument `super()` call
(`core.py` line 125) binds the frame's first argument - the regex
capture, an `re.Match` - and CPython raises `TypeError` on every
invocation, so any emphasis source raises instead of rendering; the
collapse branch is unreachable. -/
theorem em_parse_type_error :
    ∀ (baseParse : String → PState → EmNode) (capture : String) (st : PState),
      em_parse baseParse capture st = .error pySuperTypeError := by
  intro baseParse capture st
  rfl

/-- C6: `BlockQuote.match` on `"> hello"` at the start of input captures
the whole line and `parse` strips the `> ` marker, producing a
block-quote node around the nested parse of `"hello"`; on
`">>> a\nb"` the block form captures to the end of input and strips only
the first marker, producing one block quote around the nested parse of
`"a\nb"`; and the `> ` form strips the marker from every matched line
(`"> a\n> b"` also yields content `"a\nb"`). -/
theorem block_quote_strip_markers :
    blockQuote_match "> hello" "" (mk_state {}) = some "> hello" ∧
    (∀ pf : String → PState → List DNode × PState,
      (blockQuote_parse "> hello" pf (mk_state {})).1 =
        ⟨(pf "hello" {mk_state {} with in_quote := true}).1⟩) ∧
    blockQuote_match ">>> a\nb" "" (mk_state {}) = some ">>> a\nb" ∧
    (∀ pf : String → PState → List DNode × PState,
      (blockQuote_parse ">>> a\nb" pf (mk_state {})).1 =
        ⟨(pf "a\nb" {mk_state {} with in_quote := true}).1⟩) ∧
    blockQuote_match "> a\n> b" "" (mk_state {}) = some "> a\n> b" ∧
    (∀ pf : String → PState → List DNode × PState,
      (blockQuote_parse "> a\n> b" pf (mk_state {})).1 =
        ⟨(pf "a\nb" {mk_state {} with in_quote := true}).1⟩) := by
  refine ⟨by decide, fun pf => rfl, by decide, fun pf => rfl, by decide, fun pf => rfl⟩

/-- C7 counterexample: the claim says the mention rules match *only*
angle-bracket tokens whose id is a non-empty digit string, with the
channel form requiring `<#id>`.  But the regexes use `[0-9]*` and
`<#?...>`: `<@>` matches the user rule with an empty id, and `<123>`
(no `#`) matches the channel rule. -/
theorem mention_match_empty_id :
    discordUser_match "<@>".data = some ("<@>".data, "") ∧
    discordChannel_match "<123>".data = some ("<123>".data, "123") := by
  refine ⟨by decide, by decide⟩

/-- C7 amended: each mention rule matches an angle-bracket token whose
captured id is a (possibly empty) digit string - `<@id>` with optional
`!`, `<#id>` with the `#` optional, `<@&id>` - every captured id
consists solely of digits, and malformed tokens (non-digit id,
truncated bracket) fail the mention and emoji matchers and are instead
consumed by the `Text` rule, which matches their leading `<` without
raising. -/
theorem mention_match_characterization :
    (∀ (cs cap : List Char) (id : String),
      discordUser_match cs = some (cap, id) → id.data.all isPyDigit = true) ∧
    (∀ (cs cap : List Char) (id : String),
      discordChannel_match cs = some (cap, id) → id.data.all isPyDigit = true) ∧
    (∀ (cs cap : List Char) (id : String),
      discordRole_match cs = some (cap, id) → id.data.all isPyDigit = true) ∧
    discordUser_match "<@123>".data = some ("<@123>".data, "123") ∧
    discordUser_match "<@!123>".data = some ("<@!123>".data, "123") ∧
    discordChannel_match "<#42>".data = some ("<#42>".data, "42") ∧
    discordRole_match "<@&7>".data = some ("<@&7>".data, "7") ∧
    discordUser_match "<@abc>".data = none ∧
    discordUser_match "<@12".data = none ∧
    discordChannel_match "<#x>".data = none ∧
    discordRole_match "<@&x>".data = none ∧
    discordEmoji_match "<a:wave".data = none ∧
    text_match "<@abc>".data = some ['<'] ∧
    text_match "<a:wave".data = some ['<'] := by
  refine ⟨?_, ?_, ?_, by decide, by decide, by decide, by decide, by decide,
    by decide, by decide, by decide, by decide, by decide, by decide⟩
  · intro cs cap id h
    unfold discordUser_match at h
    split at h
    · exact discordMentionTail_digits _ _ _ _ h
    · exact discordMentionTail_digits _ _ _ _ h
    · exact absurd h (by simp)
  · intro cs cap id h
    unfold discordChannel_match at h
    split at h
    · exact discordMentionTail_digits _ _ _ _ h
    · exact discordMentionTail_digits _ _ _ _ h
    · exact absurd h (by simp)
  · intro cs cap id h
    unfold discordRole_match at h
    split at h
    · exact discordMentionTail_digits _ _ _ _ h
    · exact absurd h (by simp)

/-- C7 amended witness: the all-digits guarantee applied at the concrete
match `<@123>`. -/
theorem mention_match_characterization_witness :
    ("123" : String).data.all isPyDigit = true :=
  mention_match_characterization.1 "<@123>".data "<@123>".data "123" (by decide)

/-- C8: `<a:wave:999>` is consumed whole by the emoji rule and renders
as a single unclosed `img` whose class includes `d-emoji-animated`,
whose `src` ends in `999.gif` and whose `alt` is `:wave:`; the
non-animated `<:wave:999>` renders with class exactly `d-emoji` (no
animated marker) and `src` ending in `999.png`. -/
theorem discord_emoji_render :
    emojiRender "<a:wave:999>" (mk_state {}) =
      some "<img class=\"d-emoji d-emoji-animated\" src=\"https://cdn.discordapp.com/emojis/999.gif\" alt=\":wave:\">" ∧
    emojiRender "<:wave:999>" (mk_state {}) =
      some "<img class=\"d-emoji\" src=\"https://cdn.discordapp.com/emojis/999.png\" alt=\":wave:\">" ∧
    (discordEmoji_match "<a:wave:999>".data).map Prod.fst = some "<a:wave:999>".data ∧
    (discordEmoji_match "<:wave:999>".data).map Prod.fst = some "<:wave:999>".data := by
  refine ⟨by decide, by decide, by decide, by decide⟩

/-- C9: the `Text` rule consumes at least one character of any non-empty
remainder, so rule lookup in a table ending in `Text` (as the full,
mentions-only and embed tables all do) never fails: in the modelled
mentions-only table, some rule matches every non-empty input. -/
theorem text_rule_total :
    (∀ cs : List Char, cs ≠ [] → ∃ t, text_match cs = some t ∧ t ≠ []) ∧
    (∀ cs : List Char, cs ≠ [] → (firstDiscordMatch cs).isSome = true) := by
  constructor
  · exact text_match_some
  · intro cs h
    obtain ⟨t, ht, -⟩ := text_match_some cs h
    unfold firstDiscordMatch
    repeat' split
    all_goals simp [ht]

/-- C9 witness: both halves at the concrete input `a`. -/
theorem text_rule_total_witness :
    (∃ t, text_match ['a'] = some t ∧ t ≠ []) ∧ (firstDiscordMatch ['a']).isSome = true :=
  ⟨text_rule_total.1 ['a'] (by decide), text_rule_total.2 ['a'] (by decide)⟩

/-- C10: `to_html` raises its configuration error exactly when one of
`customParser` and `custom_html_output` is supplied without the other;
when both are supplied the custom pair is selected regardless of
`discord_only` and `embed`; when neither is supplied no error is raised
and the table follows the `discord_only` then `embed` then full
precedence. -/
theorem to_html_custom_pair_check :
    ∀ customParser custom_html_output discord_only embed : Bool,
      (to_html_select customParser custom_html_output discord_only embed =
          .error config_error_msg ↔ customParser ≠ custom_html_output) ∧
      to_html_select true true discord_only embed = .ok .custom ∧
      to_html_select false false discord_only embed =
        .ok (if discord_only then .discordOnly else if embed then .embed else .full) := by
  decide

end DispyMarkdown
